import Mathlib

/-!
Shallow embedding of the Foodiee dashboard admin components:
the data-manager tab (src/app/preferences/page.tsx, DataManagerTab) and the
specific-generation tab (src/components/recipe-admin/SpecificGenerationTab.tsx).
React state is modelled as explicit records, event handlers as pure state
transformers, and network calls as an effect list plus a backend oracle that
supplies each call's outcome. Form values are modelled as strings.
-/

namespace Foodiee

/-- The nine recipe metadata fields handled by the edit form of
DataManagerTab (page.tsx lines 299 to 309 and the bound inputs). -/
inductive Field where
  | name
  | description
  | region
  | difficulty
  | prep_time_minutes
  | cook_time_minutes
  | servings
  | calories
  | rating
deriving DecidableEq

/-- A recipe record as consumed by the dashboard (types/recipeAdmin Recipe);
only the parts the admin components read are carried. -/
structure Recipe where
  id : Nat
  name : String
  description : String
  region : String
  difficulty : String
  prep_time_minutes : String
  cook_time_minutes : String
  servings : String
  calories : String
  rating : String
  validation_status : String
deriving DecidableEq

/-- Value of a metadata field in the originally fetched record. -/
def fieldValue (r : Recipe) : Field → String
  | .name => r.name
  | .description => r.description
  | .region => r.region
  | .difficulty => r.difficulty
  | .prep_time_minutes => r.prep_time_minutes
  | .cook_time_minutes => r.cook_time_minutes
  | .servings => r.servings
  | .calories => r.calories
  | .rating => r.rating

/-- The field keys, in the order the Edit button initialises them. -/
def nineEditableFields : List Field :=
  [.name, .description, .region, .difficulty, .prep_time_minutes,
   .cook_time_minutes, .servings, .calories, .rating]

/-- Aggregate statistics (getStatistics response, page.tsx lines 160 to 183). -/
structure Statistics where
  total_recipes : Nat
  main_images : Nat
  ingredients_images : Nat
  steps_images : Nat
  steps_beginner : Nat
deriving DecidableEq

/-- PAGE_SIZE constant of DataManagerTab (page.tsx line 82). -/
def PAGE_SIZE : Nat := 20

/-- Outcomes the backend supplies for the calls DataManagerTab makes;
an error carries the message string shown to the operator. -/
structure DMBackend where
  listResult : Except String (List Recipe)
  statsResult : Except String Statistics
  searchResult : Except String (List Recipe)
  updateResult : Except String Unit

/-- The React state of DataManagerTab (page.tsx lines 70 to 80). -/
structure DMState where
  recipes : List Recipe
  statistics : Option Statistics
  selectedRecipe : Option Recipe
  isEditing : Bool
  editedFields : List (Field × String)
  page : Int
  loading : Bool
  filter : String
  searchQuery : String
  searchResults : List Recipe
  isSearching : Bool
deriving DecidableEq

/-- Observable side effects of a handler invocation: network calls in the
order issued, blocking alerts, and console logging. -/
inductive Effect where
  | listCall (skip : Int) (limit : Nat) (validationStatus : Option String)
  | statsCall
  | searchCall (query : String)
  | updateCall (id : Nat) (fields : List (Field × String))
  | alertMsg (text : String)
  | consoleLog (text : String)
deriving DecidableEq

/-- JavaScript String.prototype.trim: the string without leading and
trailing whitespace. -/
def jsTrim (s : String) : String :=
  String.mk
    (((s.data.dropWhile Char.isWhitespace).reverse.dropWhile
        Char.isWhitespace).reverse)

/-- Overlay initialisation performed by the Edit button (page.tsx lines
299 to 309): every one of the nine metadata fields is copied from the
currently selected recipe into editedFields. -/
def initEditedFields (r : Recipe) : List (Field × String) :=
  nineEditableFields.map (fun f => (f, fieldValue r f))

/-- JavaScript object spread with one key overwritten, as used by every
field input onChange: existing keys keep their position, a new key is
appended. -/
def setOverlay (flds : List (Field × String)) (f : Field) (v : String) :
    List (Field × String) :=
  if flds.any (fun p => p.1 = f) then
    flds.map (fun p => if p.1 = f then (f, v) else p)
  else
    flds ++ [(f, v)]

/-- loadRecipes (page.tsx lines 89 to 106): issues a list call with
skip = page * PAGE_SIZE and the filter as optional validation_status;
on success replaces recipes, on failure alerts; loading cleared in both. -/
def loadRecipes (env : DMBackend) (st : DMState) : DMState × List Effect :=
  let skip := st.page * (PAGE_SIZE : Int)
  let vs := if st.filter = "" then none else some st.filter
  match env.listResult with
  | .ok rs =>
      ({ st with loading := false, recipes := rs },
       [.listCall skip PAGE_SIZE vs])
  | .error e =>
      ({ st with loading := false },
       [.listCall skip PAGE_SIZE vs,
        .consoleLog ("Failed to load recipes: " ++ e),
        .alertMsg ("Failed to load recipes: " ++ e)])

/-- loadStatistics (page.tsx lines 108 to 115): on success stores the
statistics; a failure is caught and only written to the console. -/
def loadStatistics (env : DMBackend) (st : DMState) : DMState × List Effect :=
  match env.statsResult with
  | .ok s => ({ st with statistics := some s }, [.statsCall])
  | .error e =>
      (st, [.statsCall, .consoleLog ("Failed to load statistics: " ++ e)])

/-- handleSearch (page.tsx lines 117 to 135): empty trimmed query clears
the search; otherwise isSearching is set, the search call issued, and on
success the results stored; a failure alerts; loading cleared in both.
Note that neither page nor filter is touched. -/
def handleSearch (env : DMBackend) (st : DMState) : DMState × List Effect :=
  if jsTrim st.searchQuery = "" then
    ({ st with searchResults := [], isSearching := false }, [])
  else
    match env.searchResult with
    | .ok rs =>
        ({ st with loading := false, isSearching := true, searchResults := rs },
         [.searchCall st.searchQuery])
    | .error e =>
        ({ st with loading := false, isSearching := true },
         [.searchCall st.searchQuery,
          .consoleLog ("Search failed: " ++ e),
          .alertMsg ("Search failed: " ++ e)])

/-- clearSearch (page.tsx lines 137 to 141). -/
def clearSearch (st : DMState) : DMState :=
  { st with searchQuery := "", searchResults := [], isSearching := false }

/-- handleSave (page.tsx lines 143 to 155): guard returns at once when no
recipe is selected or the overlay is empty; otherwise the whole overlay is
sent to the update endpoint; on success alert, leave edit mode, clear the
overlay and reload the list; on failure only an alert. -/
def handleSave (env : DMBackend) (st : DMState) : DMState × List Effect :=
  match st.selectedRecipe with
  | none => (st, [])
  | some r =>
      if st.editedFields.isEmpty then (st, [])
      else
        match env.updateResult with
        | .ok _ =>
            let st1 := { st with isEditing := false, editedFields := [] }
            let res := loadRecipes env st1
            (res.1,
             .updateCall r.id st.editedFields ::
             .alertMsg "Recipe updated successfully!" :: res.2)
        | .error e =>
            (st, [.updateCall r.id st.editedFields,
                  .alertMsg ("Failed to update: " ++ e)])

/-- The Edit button handler (page.tsx lines 296 to 310); it is only
rendered when a recipe is selected. -/
def startEditing (st : DMState) : DMState :=
  match st.selectedRecipe with
  | none => st
  | some r => { st with isEditing := true, editedFields := initEditedFields r }

/-- The Cancel button handler (page.tsx line 324). -/
def cancelEditing (st : DMState) : DMState :=
  { st with isEditing := false, editedFields := [] }

/-- Clicking a recipe row (page.tsx line 245). -/
def selectRecipe (r : Recipe) (st : DMState) : DMState :=
  { st with selectedRecipe := some r }

/-- Typing into the search box (page.tsx line 196). -/
def setSearchQueryInput (q : String) (st : DMState) : DMState :=
  { st with searchQuery := q }

/-- Changing the status filter (page.tsx line 222): stores the value and
resets the page to 0. -/
def changeFilter (v : String) (st : DMState) : DMState :=
  { st with filter := v, page := 0 }

/-- disabled condition of the Previous button (page.tsx line 267). -/
def prevDisabled (st : DMState) : Bool := st.page = 0

/-- The Previous onClick body (page.tsx line 266): setPage(Math.max(0, page - 1)). -/
def prevHandler (st : DMState) : DMState :=
  { st with page := max 0 (st.page - 1) }

/-- Clicking Previous: a disabled button does not fire its handler. -/
def clickPrevious (st : DMState) : DMState :=
  if prevDisabled st then st else prevHandler st

/-- disabled condition of the Next button (page.tsx line 275). -/
def nextDisabled (st : DMState) : Bool := st.recipes.length < PAGE_SIZE

/-- Clicking Next (page.tsx line 274): setPage(page + 1), guarded by the
disabled attribute. -/
def clickNext (st : DMState) : DMState :=
  if nextDisabled st then st else { st with page := st.page + 1 }

/-- Editing one field input: spread of editedFields with that key set. -/
def editFieldInput (f : Field) (v : String) (st : DMState) : DMState :=
  { st with editedFields := setOverlay st.editedFields f v }

/-- The list actually rendered (page.tsx lines 237 and 242):
search results while searching, else the loaded page. -/
def displayedRecipes (st : DMState) : List Recipe :=
  if st.isSearching then st.searchResults else st.recipes

/-- The pagination controls render only while not searching (page.tsx line 263). -/
def paginationControlsVisible (st : DMState) : Bool := !st.isSearching

/-- The status-filter select renders only while not searching (page.tsx line 219). -/
def filterControlVisible (st : DMState) : Bool := !st.isSearching

/-- Fields of the first update call among the effects, or [] when no
update call was issued. -/
def sentUpdateFields (effs : List Effect) : List (Field × String) :=
  match effs.findSome?
      (fun e => match e with | .updateCall _ f => some f | _ => none) with
  | some f => f
  | none => []

/-- The user and framework events that can change DataManagerTab state. -/
inductive DMAction where
  | load
  | stats
  | search
  | clear
  | save
  | input (q : String)
  | select (r : Recipe)
  | filterChange (v : String)
  | prev
  | next
  | edit
  | cancel
  | fieldInput (f : Field) (v : String)

/-- One event step of DataManagerTab, dispatching to the handlers. -/
def dmStep (env : DMBackend) (a : DMAction) (st : DMState) : DMState :=
  match a with
  | .load => (loadRecipes env st).1
  | .stats => (loadStatistics env st).1
  | .search => (handleSearch env st).1
  | .clear => clearSearch st
  | .save => (handleSave env st).1
  | .input q => setSearchQueryInput q st
  | .select r => selectRecipe r st
  | .filterChange v => changeFilter v st
  | .prev => clickPrevious st
  | .next => clickNext st
  | .edit => startEditing st
  | .cancel => cancelEditing st
  | .fieldInput f v => editFieldInput f v st

/-- Initial React state of DataManagerTab (useState initialisers,
page.tsx lines 70 to 80). -/
def initDMState : DMState :=
  { recipes := [], statistics := none, selectedRecipe := none,
    isEditing := false, editedFields := [], page := 0, loading := false,
    filter := "", searchQuery := "", searchResults := [], isSearching := false }

/-- States reachable from the initial state by any sequence of events,
under any backend responses. -/
inductive DMReachable : DMState → Prop where
  | init : DMReachable initDMState
  | step (env : DMBackend) (a : DMAction) {st : DMState} :
      DMReachable st → DMReachable (dmStep env a st)

/-- A regeneration log entry (types/recipeAdmin RegenerationLog). -/
structure LogEntry where
  id : Nat
  log_level : String
  message : String
  created_at : String
deriving DecidableEq

/-- The slice of a generation job the polling loop reads
(SpecificGenerationTab.tsx lines 70 and 74). -/
structure JobInfo where
  id : Nat
  status : String
deriving DecidableEq

/-- Message banner kind of SpecificGenerationTab (line 19). -/
inductive GenMsgType where
  | success
  | error
deriving DecidableEq

/-- Inline message banner of SpecificGenerationTab. -/
structure GenMessage where
  type : GenMsgType
  text : String
deriving DecidableEq

/-- Request body of startSpecificGeneration
(SpecificGenerationTab.tsx lines 53 to 60). -/
structure GenPayload where
  recipe_name : String
  fix_main_image : Bool
  fix_ingredients_image : Bool
  fix_steps_images : Bool
  fix_steps_text : Bool
  fix_ingredients_text : Bool
deriving DecidableEq

/-- Observable side effects of the generation tab handlers and its
polling loop. -/
inductive GenEffect where
  | searchCall (query : String)
  | startCall (payload : GenPayload)
  | jobsFetch (limit : Nat)
  | logsFetch (jobId : Nat) (limit : Nat)
  | consoleLog (text : String)
deriving DecidableEq

/-- The React state of SpecificGenerationTab (lines 13 to 26). -/
structure GenState where
  searchQuery : String
  searchResults : List Recipe
  selectedRecipe : Option Recipe
  isSearching : Bool
  isGenerating : Bool
  logs : List LogEntry
  message : Option GenMessage
  fixMainImage : Bool
  fixIngredientsImage : Bool
  fixStepsImages : Bool
  fixStepsText : Bool
  fixIngredientsText : Bool
deriving DecidableEq

/-- Outcomes the backend supplies for the generation tab calls. -/
structure GenBackend where
  searchResult : Except String (List Recipe)
  startResult : Except String Unit

/-- Initial React state of SpecificGenerationTab. -/
def initGenState : GenState :=
  { searchQuery := "", searchResults := [], selectedRecipe := none,
    isSearching := false, isGenerating := false, logs := [], message := none,
    fixMainImage := false, fixIngredientsImage := false,
    fixStepsImages := false, fixStepsText := false,
    fixIngredientsText := false }

/-- atLeastOneOptionSelected (SpecificGenerationTab.tsx line 95). -/
def atLeastOneOptionSelected (st : GenState) : Bool :=
  st.fixMainImage || st.fixIngredientsImage || st.fixStepsImages ||
  st.fixStepsText || st.fixIngredientsText

/-- disabled condition of the Start Generation button (line 200). -/
def generateButtonDisabled (st : GenState) : Bool :=
  st.isGenerating || !atLeastOneOptionSelected st

/-- handleSearch of the generation tab (lines 28 to 43): empty trimmed
query returns at once; success stores the results and shows an inline
error message when none matched; a failure shows the message inline;
isSearching is cleared in the finally branch. -/
def genHandleSearch (env : GenBackend) (st : GenState) :
    GenState × List GenEffect :=
  if jsTrim st.searchQuery = "" then (st, [])
  else
    match env.searchResult with
    | .ok rs =>
        let st1 := { st with isSearching := false, searchResults := rs }
        let noneFound : GenMessage :=
          ⟨.error, "No recipes found matching your search"⟩
        if rs.isEmpty then
          ({ st1 with message := some noneFound }, [.searchCall st.searchQuery])
        else (st1, [.searchCall st.searchQuery])
    | .error e =>
        ({ st with isSearching := false, message := some ⟨.error, e⟩ },
         [.searchCall st.searchQuery])

/-- handleGenerate (lines 45 to 93): returns at once when no recipe is
selected; otherwise clears logs and message, sets isGenerating, and
submits the selected name plus the five flags; on success the polling
interval is started (the returned Bool); on failure the message is set
inline and isGenerating cleared. -/
def handleGenerate (env : GenBackend) (st : GenState) :
    GenState × Bool × List GenEffect :=
  match st.selectedRecipe with
  | none => (st, false, [])
  | some r =>
      let st1 := { st with isGenerating := true, logs := [], message := none }
      let payload : GenPayload :=
        { recipe_name := r.name,
          fix_main_image := st.fixMainImage,
          fix_ingredients_image := st.fixIngredientsImage,
          fix_steps_images := st.fixStepsImages,
          fix_steps_text := st.fixStepsText,
          fix_ingredients_text := st.fixIngredientsText }
      match env.startResult with
      | .ok _ => (st1, true, [.startCall payload])
      | .error e =>
          ({ st1 with isGenerating := false, message := some ⟨.error, e⟩ },
           false, [.startCall payload])

/-- Clicking Start Generation: a disabled button does not fire its
handler (lines 198 to 204). -/
def clickStartGeneration (env : GenBackend) (st : GenState) :
    GenState × Bool × List GenEffect :=
  if generateButtonDisabled st then (st, false, []) else handleGenerate env st

/-- The terminal status list tested by the polling loop (line 74). -/
def TERMINAL_STATUSES : List String := ["completed", "failed", "cancelled"]

/-- Whether a job status stops the polling loop. -/
def isTerminalStatus (s : String) : Bool := TERMINAL_STATUSES.contains s

/-- Interval period of the polling loop in milliseconds (line 88). -/
def POLL_INTERVAL_MS : Nat := 2000

/-- limit query parameter of the jobs fetch (line 65). -/
def JOBS_LIMIT : Nat := 1

/-- limit argument of getJobLogs (line 71). -/
def LOGS_LIMIT : Nat := 20

/-- What one tick of the polling interval observes: the jobs fetch throws,
returns no jobs, or returns a latest job together with the outcome of the
subsequent getJobLogs call. -/
inductive TickResponse where
  | fetchFailure
  | noJobs
  | jobWithLogs (job : JobInfo) (logsResult : Except String (List LogEntry))

/-- Polling-loop state: the component state plus whether the interval is
still registered (clearInterval not yet called). -/
structure PollState where
  gen : GenState
  intervalActive : Bool

/-- One tick of the setInterval callback (lines 63 to 88): nothing fires
once the interval is cleared; a throw anywhere in the body is caught and
logged; when a latest job exists its logs are fetched with limit 20 and
the displayed list is replaced by the response; when its status is
terminal the interval is cleared, isGenerating reset and the final
message set. -/
def pollTick (r : TickResponse) (ps : PollState) :
    PollState × List GenEffect :=
  if ps.intervalActive = false then (ps, [])
  else
    match r with
    | .fetchFailure =>
        (ps, [.jobsFetch JOBS_LIMIT, .consoleLog "Polling error"])
    | .noJobs => (ps, [.jobsFetch JOBS_LIMIT])
    | .jobWithLogs job logsResult =>
        match logsResult with
        | .error _ =>
            (ps, [.jobsFetch JOBS_LIMIT, .logsFetch job.id LOGS_LIMIT,
                  .consoleLog "Polling error"])
        | .ok fetchedLogs =>
            let gen1 := { ps.gen with logs := fetchedLogs }
            let finalMsg : GenMessage :=
              if job.status = "completed" then
                ⟨.success, "Recipe updated successfully!"⟩
              else
                ⟨.error, "Generation failed. Check logs for details."⟩
            let gen2 :=
              { gen1 with isGenerating := false, message := some finalMsg }
            if isTerminalStatus job.status then
              ({ gen := gen2, intervalActive := false },
               [.jobsFetch JOBS_LIMIT, .logsFetch job.id LOGS_LIMIT])
            else
              ({ ps with gen := gen1 },
               [.jobsFetch JOBS_LIMIT, .logsFetch job.id LOGS_LIMIT])

/-- A run of the interval over a sequence of tick observations. -/
def runPoll (rs : List TickResponse) (ps : PollState) :
    PollState × List GenEffect :=
  match rs with
  | [] => (ps, [])
  | r :: rest =>
      let step1 := pollTick r ps
      let step2 := runPoll rest step1.1
      (step2.1, step1.2 ++ step2.2)

/-- An img element, reduced to the one attribute the onError handlers
touch. -/
structure ImgState where
  src : String
deriving DecidableEq

/-- The inline SVG data URI the onError handlers assign, parametrised by
the square size, extra text attributes and the label, exactly as written
in page.tsx. -/
def placeholderDataUri (size : String) (attrs : String) (label : String) :
    String :=
  "data:image/svg+xml,<svg xmlns=\"http://www.w3.org/2000/svg\" width=\"" ++
  size ++ "\" height=\"" ++ size ++
  "\"><text x=\"50%\" y=\"50%\" text-anchor=\"middle\" dy=\".3em\" fill=\"%23666\"" ++
  attrs ++ ">" ++ label ++ "</text></svg>"

/-- onError of the main image preview while editing (page.tsx line 588). -/
def mainImageEditFallback (img : ImgState) : ImgState :=
  { img with src := placeholderDataUri "100" "" "Invalid URL" }

/-- onError of the main image while viewing (page.tsx line 607). -/
def mainImageViewFallback (img : ImgState) : ImgState :=
  { img with src := placeholderDataUri "100" "" "Error Loading" }

/-- onError of the ingredients image preview while editing (line 642). -/
def ingredientsImageEditFallback (img : ImgState) : ImgState :=
  { img with src := placeholderDataUri "100" "" "Invalid URL" }

/-- onError of the ingredients image while viewing (line 661). -/
def ingredientsImageViewFallback (img : ImgState) : ImgState :=
  { img with src := placeholderDataUri "100" "" "Error Loading" }

/-- onError of a step image thumbnail while editing (line 702). -/
def stepImageEditFallback (img : ImgState) : ImgState :=
  { img with src := placeholderDataUri "50" " font-size=\"10\"" "!" }

/-- onError of a step image while viewing (line 741). -/
def stepImageViewFallback (img : ImgState) : ImgState :=
  { img with src := placeholderDataUri "100" "" "!" }

/-- onError of the main image in the status section (line 778). -/
def statusMainImageFallback (img : ImgState) : ImgState :=
  { img with src := placeholderDataUri "100" "" "No Image" }

/-- onError of the ingredients image in the status section (line 800). -/
def statusIngredientsImageFallback (img : ImgState) : ImgState :=
  { img with src := placeholderDataUri "100" "" "No Image" }

/-- onError of a step image in the status section (line 825). -/
def statusStepImageFallback (img : ImgState) : ImgState :=
  { img with src := placeholderDataUri "100" "" "Error" }

/-- All placeholder URIs assigned by the nine onError sites. -/
def allPlaceholderUris : List String :=
  [placeholderDataUri "100" "" "Invalid URL",
   placeholderDataUri "100" "" "Error Loading",
   placeholderDataUri "50" " font-size=\"10\"" "!",
   placeholderDataUri "100" "" "!",
   placeholderDataUri "100" "" "No Image",
   placeholderDataUri "100" "" "Error"]

/-- Whether an effect is a blocking alert. -/
def isAlertEffect : Effect → Bool
  | .alertMsg _ => true
  | _ => false

/-- Whether a string is an inline SVG data URI: its characters begin with
the scheme data:image/svg+xml followed by a comma. -/
def isInlineSvg (s : String) : Bool :=
  s.data.take ("data:image/svg+xml,".data.length) = "data:image/svg+xml,".data

/-! Concrete fixtures used by witnesses and counterexamples. -/

/-- A sample recipe record. -/
def r0 : Recipe :=
  { id := 1, name := "Dosa", description := "Crispy rice crepe",
    region := "South Indian", difficulty := "Easy",
    prep_time_minutes := "20", cook_time_minutes := "30", servings := "2",
    calories := "250", rating := "4.5", validation_status := "validated" }

/-- Sample statistics. -/
def stats0 : Statistics := ⟨12, 3, 4, 5, 6⟩

/-- A backend where every data-manager call succeeds with empty data. -/
def envOkDM : DMBackend :=
  { listResult := .ok [], statsResult := .ok stats0, searchResult := .ok [],
    updateResult := .ok () }

/-- A backend whose update and reload both succeed, the reload returning r0. -/
def envUpdOk : DMBackend :=
  { listResult := .ok [r0], statsResult := .ok stats0, searchResult := .ok [],
    updateResult := .ok () }

/-- A backend whose search succeeds with one hit. -/
def envSearchOk : DMBackend :=
  { listResult := .ok [], statsResult := .ok stats0,
    searchResult := .ok [r0], updateResult := .ok () }

/-- A backend whose statistics call fails. -/
def envStatsFail : DMBackend :=
  { listResult := .ok [], statsResult := .error "Network error",
    searchResult := .ok [], updateResult := .ok () }

/-- A backend whose update call fails. -/
def envUpdFail : DMBackend :=
  { listResult := .ok [], statsResult := .ok stats0, searchResult := .ok [],
    updateResult := .error "HTTP 500" }

/-- State right after selecting r0 and pressing Edit, with no field
touched yet: the overlay already holds all nine metadata fields. -/
def stEditingUntouched : DMState := startEditing (selectRecipe r0 initDMState)

/-- A data-manager state sitting on page 3 with a status filter and a
pending search query. -/
def stPage3 : DMState :=
  { initDMState with page := 3, filter := "pending", searchQuery := "dosa" }

/-- A data-manager state whose last load returned a full page. -/
def stFullPage : DMState :=
  { initDMState with recipes := List.replicate 20 r0 }

/-- A generation-tab state with a recipe selected and one fix flag set. -/
def stGenReady : GenState :=
  { initGenState with selectedRecipe := some r0, fixMainImage := true }

/-- A generation backend where both calls succeed. -/
def envGenOk : GenBackend := { searchResult := .ok [r0], startResult := .ok () }

/-- A generation backend whose calls fail. -/
def envGenFail : GenBackend :=
  { searchResult := .error "Search failed", startResult := .error "HTTP 500" }

/-- A live polling interval over a fresh generation state. -/
def psActive : PollState := { gen := initGenState, intervalActive := true }

/-- A cleared polling interval. -/
def psInactive : PollState := { gen := initGenState, intervalActive := false }

/-- A terminal job. -/
def jobDone : JobInfo := { id := 7, status := "completed" }

/-- A non-terminal job. -/
def jobRunning : JobInfo := { id := 7, status := "running" }

/-- A first log entry. -/
def logA : LogEntry :=
  { id := 1, log_level := "INFO", message := "step one", created_at := "t1" }

/-- A second log entry. -/
def logB : LogEntry :=
  { id := 2, log_level := "INFO", message := "step two", created_at := "t2" }

/-- Poll state after a first cycle whose logs response was [logA]. -/
def psAfterCycle1 : PollState :=
  (pollTick (.jobWithLogs jobRunning (.ok [logA])) psActive).1

/-- Poll state after a second cycle whose logs response was [logB]. -/
def psAfterCycle2 : PollState :=
  (pollTick (.jobWithLogs jobRunning (.ok [logB])) psAfterCycle1).1

/-! Helper lemmas. -/

/-- A cleared interval never fires again: runPoll from an inactive state
changes nothing and performs no fetches. -/
theorem runPoll_inactive (ps : PollState) (h : ps.intervalActive = false) :
    ∀ rs : List TickResponse, runPoll rs ps = (ps, []) := by
  intro rs
  induction rs with
  | nil => rfl
  | cons r rest ih => simp [runPoll, pollTick, h, ih]

/-- loadRecipes never changes the page. -/
theorem loadRecipes_page (env : DMBackend) (st : DMState) :
    (loadRecipes env st).1.page = st.page := by
  rcases h : env.listResult with e | rs <;> simp [loadRecipes, h]

/-- loadStatistics never changes the page. -/
theorem loadStatistics_page (env : DMBackend) (st : DMState) :
    (loadStatistics env st).1.page = st.page := by
  rcases h : env.statsResult with e | s <;> simp [loadStatistics, h]

/-- handleSearch never changes the page. -/
theorem handleSearch_page (env : DMBackend) (st : DMState) :
    (handleSearch env st).1.page = st.page := by
  by_cases hq : jsTrim st.searchQuery = ""
  · simp [handleSearch, hq]
  · rcases h : env.searchResult with e | rs <;> simp [handleSearch, hq, h]

/-- handleSave never changes the page. -/
theorem handleSave_page (env : DMBackend) (st : DMState) :
    (handleSave env st).1.page = st.page := by
  rcases hs : st.selectedRecipe with _ | r
  · simp [handleSave, hs]
  · by_cases he : st.editedFields.isEmpty
    · simp [handleSave, hs, he]
    · rcases hu : env.updateResult with e | u <;>
        simp [handleSave, hs, he, hu, loadRecipes_page]

/-- Every event of the data manager keeps the page non-negative. -/
theorem dmStep_page_nonneg (env : DMBackend) (a : DMAction) (st : DMState)
    (h : 0 ≤ st.page) : 0 ≤ (dmStep env a st).page := by
  cases a with
  | load => simpa [dmStep, loadRecipes_page] using h
  | stats => simpa [dmStep, loadStatistics_page] using h
  | search => simpa [dmStep, handleSearch_page] using h
  | clear => simpa [dmStep, clearSearch] using h
  | save => simpa [dmStep, handleSave_page] using h
  | input q => simpa [dmStep, setSearchQueryInput] using h
  | select r => simpa [dmStep, selectRecipe] using h
  | filterChange v => simp [dmStep, changeFilter]
  | prev =>
      by_cases hp : prevDisabled st
      · simpa [dmStep, clickPrevious, hp] using h
      · simp [dmStep, clickPrevious, hp, prevHandler]
  | next =>
      by_cases hn : nextDisabled st
      · simpa [dmStep, clickNext, hn] using h
      · have : (0 : Int) ≤ st.page + 1 := by omega
        simpa [dmStep, clickNext, hn] using this
  | edit =>
      rcases hs : st.selectedRecipe with _ | r <;>
        simpa [dmStep, startEditing, hs] using h
  | cancel => simpa [dmStep, cancelEditing] using h
  | fieldInput f v => simpa [dmStep, editFieldInput] using h

/-- The page of every reachable data-manager state is non-negative. -/
theorem dmReachable_page_nonneg (st : DMState) (h : DMReachable st) :
    0 ≤ st.page := by
  induction h with
  | init => decide
  | step env a hr ih => exact dmStep_page_nonneg env a _ ih

/-! Theorems settling the claims. -/

/-- C2 counterexample: a cycle can fetch a job whose status is terminal
(completed) and still leave the interval registered: when the logs fetch
of that cycle throws, the catch only logs the error, clearInterval is
never reached, and the next tick performs further job and log fetches. -/
theorem C2_terminal_stops_counterexample :
    isTerminalStatus jobDone.status = true
    ∧ (pollTick (.jobWithLogs jobDone (.error "HTTP 500"))
        psActive).1.intervalActive = true
    ∧ ¬ (pollTick (.jobWithLogs jobDone (.ok [logA]))
          (pollTick (.jobWithLogs jobDone (.error "HTTP 500"))
            psActive).1).2 = []
    ∧ GenEffect.jobsFetch JOBS_LIMIT
        ∈ (pollTick (.jobWithLogs jobDone (.ok [logA]))
            (pollTick (.jobWithLogs jobDone (.error "HTTP 500"))
              psActive).1).2
    ∧ GenEffect.logsFetch jobDone.id LOGS_LIMIT
        ∈ (pollTick (.jobWithLogs jobDone (.ok [logA]))
            (pollTick (.jobWithLogs jobDone (.error "HTTP 500"))
              psActive).1).2 := by
  decide

/-- C2 amended: once a cycle fetches a job with terminal status
(completed, failed or cancelled) and that cycle's logs fetch succeeds,
the interval is cleared and no further job or log fetch occurs for that
run; when the logs fetch of a cycle throws, the error is caught, the
interval stays registered and polling continues regardless of the
status; a tick observing a non-terminal status likewise leaves the
interval registered, and the interval period is 2000 ms. -/
theorem C2_polling_stops_on_terminal :
    POLL_INTERVAL_MS = 2000
    ∧ (∀ (ps : PollState) (job : JobInfo) (fetched : List LogEntry),
        ps.intervalActive = true → isTerminalStatus job.status = true →
        (pollTick (.jobWithLogs job (.ok fetched)) ps).1.intervalActive = false)
    ∧ (∀ ps : PollState, ps.intervalActive = false →
        ∀ rs : List TickResponse, runPoll rs ps = (ps, []))
    ∧ (∀ (ps : PollState) (job : JobInfo) (fetched : List LogEntry),
        ps.intervalActive = true → isTerminalStatus job.status = false →
        (pollTick (.jobWithLogs job (.ok fetched)) ps).1.intervalActive
          = true)
    ∧ (∀ (ps : PollState) (job : JobInfo) (e : String),
        ps.intervalActive = true →
        pollTick (.jobWithLogs job (.error e)) ps
          = (ps, [.jobsFetch JOBS_LIMIT, .logsFetch job.id LOGS_LIMIT,
                  .consoleLog "Polling error"])) := by
  refine ⟨rfl, ?_, ?_, ?_, ?_⟩
  · intro ps job fetched ha ht
    simp [pollTick, ha, ht]
  · intro ps h rs
    exact runPoll_inactive ps h rs
  · intro ps job fetched ha ht
    simp [pollTick, ha, ht]
  · intro ps job e ha
    simp [pollTick, ha]

/-- C2 witness: a concrete terminal tick with a successful logs fetch
clears the interval, a cleared interval performs no further fetch over
further cycles, and a concrete failing logs fetch leaves the state
untouched while the interval keeps running. -/
theorem C2_polling_stops_on_terminal_witness :
    (pollTick (.jobWithLogs jobDone (.ok [])) psActive).1.intervalActive
      = false
    ∧ runPoll [TickResponse.noJobs, TickResponse.fetchFailure] psInactive
      = (psInactive, [])
    ∧ pollTick (.jobWithLogs jobDone (.error "HTTP 500")) psActive
      = (psActive, [.jobsFetch JOBS_LIMIT, .logsFetch jobDone.id LOGS_LIMIT,
                    .consoleLog "Polling error"]) := by
  refine ⟨?_, ?_, ?_⟩
  · exact C2_polling_stops_on_terminal.2.1 psActive jobDone [] rfl (by decide)
  · exact C2_polling_stops_on_terminal.2.2.1 psInactive rfl _
  · exact C2_polling_stops_on_terminal.2.2.2.2 psActive jobDone "HTTP 500" rfl

/-- C3: triggering Save with no selected recipe or an empty overlay makes
no update call and leaves the component state unchanged. -/
theorem C3_save_noop_without_changes (env : DMBackend) (st : DMState)
    (h : st.selectedRecipe = none ∨ st.editedFields = []) :
    handleSave env st = (st, []) := by
  rcases h with h | h
  · simp [handleSave, h]
  · rcases hs : st.selectedRecipe with _ | r
    · simp [handleSave, hs]
    · simp [handleSave, hs, h]

/-- C3 witness: Save on the initial state does nothing. -/
theorem C3_save_noop_without_changes_witness :
    handleSave envOkDM initDMState = (initDMState, []) :=
  C3_save_noop_without_changes envOkDM initDMState (Or.inl rfl)

/-- C4 counterexample: the displayed log list is not append-only across
cycles: after a first cycle whose logs response was [logA] and a second
whose response was [logB], logA is no longer displayed. -/
theorem C4_logs_append_counterexample :
    logA ∈ psAfterCycle1.gen.logs ∧ logA ∉ psAfterCycle2.gen.logs := by
  decide

/-- C4 amended: each polling cycle that observes a latest job fetches its
logs with limit 20 and replaces the displayed log list with exactly the
fetched response; entries from earlier cycles are retained only when the
new response still contains them. -/
theorem C4_logs_replaced_each_cycle (ps : PollState) (job : JobInfo)
    (fetched : List LogEntry) (h : ps.intervalActive = true) :
    (pollTick (.jobWithLogs job (.ok fetched)) ps).1.gen.logs = fetched
    ∧ GenEffect.logsFetch job.id LOGS_LIMIT
        ∈ (pollTick (.jobWithLogs job (.ok fetched)) ps).2 := by
  by_cases ht : isTerminalStatus job.status <;> simp [pollTick, h, ht]

/-- C4 witness: the first concrete cycle stores exactly the fetched logs. -/
theorem C4_logs_replaced_each_cycle_witness :
    psAfterCycle1.gen.logs = [logA] :=
  (C4_logs_replaced_each_cycle psActive jobRunning [logA] rfl).1

/-- C1 counterexample: with r0 selected and Edit pressed but no field
touched, Save sends an update body in which the name key carries a value
equal to the originally fetched one, so not every sent key differs from
the original record. -/
theorem C1_only_changed_fields_counterexample :
    ¬ (∀ p ∈ sentUpdateFields (handleSave envOkDM stEditingUntouched).2,
        p.2 ≠ fieldValue r0 p.1) := by
  decide

/-- C1 amended: Save sends exactly the key-value pairs of the overlay map
(which the Edit button initialises with the current values of all nine
metadata fields, so unchanged fields are included in the body), and after
a successful update the recipe list is reloaded from the list endpoint. -/
theorem C1_save_sends_overlay (env : DMBackend) (st : DMState) (r : Recipe)
    (hsel : st.selectedRecipe = some r) (hne : ¬ st.editedFields = []) :
    sentUpdateFields (handleSave env st).2 = st.editedFields
    ∧ (initEditedFields r).map Prod.fst = nineEditableFields
    ∧ (∀ rs : List Recipe, env.updateResult = .ok () → env.listResult = .ok rs →
        (handleSave env st).1.recipes = rs
        ∧ Effect.listCall (st.page * (PAGE_SIZE : Int)) PAGE_SIZE
            (if st.filter = "" then none else some st.filter)
          ∈ (handleSave env st).2) := by
  have he : st.editedFields.isEmpty = false := by
    simpa [List.isEmpty_iff] using hne
  refine ⟨?_, rfl, ?_⟩
  · rcases hu : env.updateResult with e | u <;>
      simp [handleSave, hsel, he, hu, sentUpdateFields]
  · intro rs hu hl
    simp [handleSave, hsel, he, hu, loadRecipes, hl]

/-- C1 witness: the amended statement at the untouched editing state. -/
theorem C1_save_sends_overlay_witness :
    sentUpdateFields (handleSave envUpdOk stEditingUntouched).2
      = stEditingUntouched.editedFields
    ∧ (handleSave envUpdOk stEditingUntouched).1.recipes = [r0] := by
  have h := C1_save_sends_overlay envUpdOk stEditingUntouched r0
    (by decide) (by decide)
  exact ⟨h.1, (h.2.2 [r0] rfl rfl).1⟩

/-- C5 counterexample: performing a name search from page 3 with the
pending filter set leaves the page index at 3 (not the first page) and
the filter value unchanged. -/
theorem C5_search_resets_counterexample :
    (handleSearch envSearchOk stPage3).1.page = 3
    ∧ ¬ (handleSearch envSearchOk stPage3).1.page = 0
    ∧ (handleSearch envSearchOk stPage3).1.filter = "pending" := by
  decide

/-- C5 amended: a successful name search replaces the displayed list with
the search results and sets the searching flag, which hides both the
pagination controls and the status-filter control; the stored page index
and filter value themselves are left unchanged. -/
theorem C5_search_hides_controls (env : DMBackend) (st : DMState)
    (rs : List Recipe) (hq : ¬ jsTrim st.searchQuery = "")
    (hr : env.searchResult = .ok rs) :
    displayedRecipes (handleSearch env st).1 = rs
    ∧ paginationControlsVisible (handleSearch env st).1 = false
    ∧ filterControlVisible (handleSearch env st).1 = false
    ∧ (handleSearch env st).1.page = st.page
    ∧ (handleSearch env st).1.filter = st.filter := by
  simp [handleSearch, hq, hr, displayedRecipes, paginationControlsVisible,
    filterControlVisible]

/-- C5 witness: the amended statement at the concrete page-3 state. -/
theorem C5_search_hides_controls_witness :
    displayedRecipes (handleSearch envSearchOk stPage3).1 = [r0]
    ∧ (handleSearch envSearchOk stPage3).1.page = stPage3.page := by
  have h := C5_search_hides_controls envSearchOk stPage3 [r0]
    (by decide) rfl
  exact ⟨h.1, h.2.2.2.1⟩

/-- C6: the Next control is disabled exactly when the last loaded page
holds fewer than PAGE_SIZE = 20 recipes; when it is enabled, clicking it
increments the page index by one and changes nothing else of the state. -/
theorem C6_next_disabled_iff_short_page (st : DMState) :
    PAGE_SIZE = 20
    ∧ (nextDisabled st = true ↔ st.recipes.length < 20)
    ∧ (nextDisabled st = false →
        clickNext st = { st with page := st.page + 1 }) := by
  refine ⟨rfl, ?_, ?_⟩
  · simp [nextDisabled, PAGE_SIZE]
  · intro h
    simp [clickNext, h]

/-- C6 witness: with a full page of 20 recipes Next is enabled and
advances the page from 0 to 1. -/
theorem C6_next_disabled_iff_short_page_witness :
    nextDisabled stFullPage = false
    ∧ (clickNext stFullPage).page = stFullPage.page + 1 := by
  have h := (C6_next_disabled_iff_short_page stFullPage).2.2 (by decide)
  exact ⟨by decide, by rw [h]⟩

/-- C7: each of the nine image onError sites (main, ingredients and step
images, in the edit, view and status sections) replaces the failing
source with its inline SVG placeholder data URI; the handlers are total
functions of the image state, so no exception escapes them. -/
theorem C7_image_onerror_placeholder :
    (∀ img : ImgState, (mainImageEditFallback img).src
      = placeholderDataUri "100" "" "Invalid URL")
    ∧ (∀ img : ImgState, (mainImageViewFallback img).src
      = placeholderDataUri "100" "" "Error Loading")
    ∧ (∀ img : ImgState, (ingredientsImageEditFallback img).src
      = placeholderDataUri "100" "" "Invalid URL")
    ∧ (∀ img : ImgState, (ingredientsImageViewFallback img).src
      = placeholderDataUri "100" "" "Error Loading")
    ∧ (∀ img : ImgState, (stepImageEditFallback img).src
      = placeholderDataUri "50" " font-size=\"10\"" "!")
    ∧ (∀ img : ImgState, (stepImageViewFallback img).src
      = placeholderDataUri "100" "" "!")
    ∧ (∀ img : ImgState, (statusMainImageFallback img).src
      = placeholderDataUri "100" "" "No Image")
    ∧ (∀ img : ImgState, (statusIngredientsImageFallback img).src
      = placeholderDataUri "100" "" "No Image")
    ∧ (∀ img : ImgState, (statusStepImageFallback img).src
      = placeholderDataUri "100" "" "Error")
    ∧ allPlaceholderUris.all isInlineSvg = true := by
  refine ⟨fun img => rfl, fun img => rfl, fun img => rfl, fun img => rfl,
    fun img => rfl, fun img => rfl, fun img => rfl, fun img => rfl,
    fun img => rfl, ?_⟩
  decide

/-- C8 counterexample: a failing statistics call is caught but surfaced
neither as a blocking alert nor as any state visible to the operator:
the effects carry no alert and the component state is unchanged (the
data-manager tab has no inline message banner at all). -/
theorem C8_stats_failure_silent_counterexample :
    (loadStatistics envStatsFail initDMState).2
      = [.statsCall, .consoleLog "Failed to load statistics: Network error"]
    ∧ (loadStatistics envStatsFail initDMState).2.any isAlertEffect = false
    ∧ (loadStatistics envStatsFail initDMState).1 = initDMState := by
  decide

/-- C8 amended: failures of the list, search, update and generation-start
calls are caught at the call site and surfaced as a blocking alert (data
manager) or an inline message (generation tab); each handler invocation
issues its backend call exactly once, so nothing is retried; on an update
failure the whole component state, in particular the editing flag and the
overlay fields, is unchanged; a statistics failure, however, is caught
and only written to the console. -/
theorem C8_error_handling (env : DMBackend) (st : DMState)
    (genv : GenBackend) (gst : GenState) :
    (∀ e, env.listResult = .error e →
      (loadRecipes env st).1.page = st.page
      ∧ (loadRecipes env st).2 =
        [.listCall (st.page * (PAGE_SIZE : Int)) PAGE_SIZE
           (if st.filter = "" then none else some st.filter),
         .consoleLog ("Failed to load recipes: " ++ e),
         .alertMsg ("Failed to load recipes: " ++ e)])
    ∧ (∀ e, env.searchResult = .error e → ¬ jsTrim st.searchQuery = "" →
      (handleSearch env st).2 =
        [.searchCall st.searchQuery,
         .consoleLog ("Search failed: " ++ e),
         .alertMsg ("Search failed: " ++ e)])
    ∧ (∀ e r, st.selectedRecipe = some r → ¬ st.editedFields = [] →
        env.updateResult = .error e →
      handleSave env st =
        (st, [.updateCall r.id st.editedFields,
              .alertMsg ("Failed to update: " ++ e)]))
    ∧ (∀ e, env.statsResult = .error e →
      loadStatistics env st =
        (st, [.statsCall, .consoleLog ("Failed to load statistics: " ++ e)]))
    ∧ (∀ e, genv.searchResult = .error e → ¬ jsTrim gst.searchQuery = "" →
      (genHandleSearch genv gst).1.message = some ⟨.error, e⟩
      ∧ (genHandleSearch genv gst).2 = [.searchCall gst.searchQuery])
    ∧ (∀ e r, gst.selectedRecipe = some r → genv.startResult = .error e →
      (handleGenerate genv gst).1.message = some ⟨.error, e⟩
      ∧ (handleGenerate genv gst).1.isGenerating = false
      ∧ (handleGenerate genv gst).2.1 = false
      ∧ (handleGenerate genv gst).2.2 =
          [.startCall { recipe_name := r.name,
                        fix_main_image := gst.fixMainImage,
                        fix_ingredients_image := gst.fixIngredientsImage,
                        fix_steps_images := gst.fixStepsImages,
                        fix_steps_text := gst.fixStepsText,
                        fix_ingredients_text := gst.fixIngredientsText }]) := by
  refine ⟨?_, ?_, ?_, ?_, ?_, ?_⟩
  · intro e he
    simp [loadRecipes, he]
  · intro e he hq
    simp [handleSearch, he, hq]
  · intro e r hsel hne hu
    have he : st.editedFields.isEmpty = false := by
      simpa [List.isEmpty_iff] using hne
    simp [handleSave, hsel, he, hu]
  · intro e he
    simp [loadStatistics, he]
  · intro e he hq
    simp [genHandleSearch, he, hq]
  · intro e r hsel hu
    simp [handleGenerate, hsel, hu]

/-- C8 witness: the amended statement at a concrete failing update. -/
theorem C8_error_handling_witness :
    handleSave envUpdFail stEditingUntouched =
      (stEditingUntouched,
       [.updateCall 1 stEditingUntouched.editedFields,
        .alertMsg "Failed to update: HTTP 500"]) := by
  have h := (C8_error_handling envUpdFail stEditingUntouched envGenOk
    initGenState).2.2.1 "HTTP 500" r0 (by decide) (by decide) rfl
  simpa using h

/-- C9: a generation request is submitted only when a recipe is selected
and at least one fix flag is set: handleGenerate returns unchanged with no
call when nothing is selected, the Start Generation button is disabled
while generating or while no flag is set, and whenever a start call is
issued its payload is exactly the selected name plus the five flags. -/
theorem C9_generation_guarded (env : GenBackend) (st : GenState) :
    (st.selectedRecipe = none → handleGenerate env st = (st, false, []))
    ∧ (generateButtonDisabled st = true →
        clickStartGeneration env st = (st, false, []))
    ∧ (generateButtonDisabled st
        = (st.isGenerating || !atLeastOneOptionSelected st))
    ∧ (¬ (clickStartGeneration env st).2.2 = [] →
        atLeastOneOptionSelected st = true ∧ st.isGenerating = false
        ∧ ¬ st.selectedRecipe = none)
    ∧ (∀ r, st.selectedRecipe = some r → generateButtonDisabled st = false →
        (clickStartGeneration env st).2.2 =
          [.startCall { recipe_name := r.name,
                        fix_main_image := st.fixMainImage,
                        fix_ingredients_image := st.fixIngredientsImage,
                        fix_steps_images := st.fixStepsImages,
                        fix_steps_text := st.fixStepsText,
                        fix_ingredients_text := st.fixIngredientsText }]) := by
  refine ⟨?_, ?_, rfl, ?_, ?_⟩
  · intro h
    simp [handleGenerate, h]
  · intro h
    simp [clickStartGeneration, h]
  · intro hne
    by_cases hd : generateButtonDisabled st
    · simp [clickStartGeneration, hd] at hne
    · have hd2 := hd
      simp [generateButtonDisabled] at hd2
      refine ⟨hd2.2, hd2.1, ?_⟩
      intro hsel
      simp [clickStartGeneration, hd, handleGenerate, hsel] at hne
  · intro r hsel hd
    rcases hu : env.startResult with e | u <;>
      simp [clickStartGeneration, hd, handleGenerate, hsel, hu]

/-- C9 witness: a concrete enabled click submits the selected name and
the five flags. -/
theorem C9_generation_guarded_witness :
    (clickStartGeneration envGenOk stGenReady).2.2 =
      [.startCall { recipe_name := "Dosa", fix_main_image := true,
                    fix_ingredients_image := false, fix_steps_images := false,
                    fix_steps_text := false, fix_ingredients_text := false }] := by
  have h := (C9_generation_guarded envGenOk stGenReady).2.2.2.2 r0
    (by decide) (by decide)
  simpa using h

/-- C10: the data-manager page index starts at 0; the Previous handler
writes max(0, page - 1) and its button is disabled exactly at page 0;
changing the status filter resets the page to 0; every reachable state
has a non-negative page, and hence every skip offset page * 20 handed to
the list endpoint is non-negative. -/
theorem C10_page_invariant :
    initDMState.page = 0
    ∧ (∀ st : DMState, prevHandler st = { st with page := max 0 (st.page - 1) })
    ∧ (∀ st : DMState, prevDisabled st = true ↔ st.page = 0)
    ∧ (∀ (st : DMState) (v : String), (changeFilter v st).page = 0)
    ∧ (∀ st : DMState, DMReachable st → 0 ≤ st.page)
    ∧ (∀ (env : DMBackend) (st : DMState), DMReachable st →
        ∀ skip lim vs, Effect.listCall skip lim vs ∈ (loadRecipes env st).2 →
          0 ≤ skip) := by
  refine ⟨rfl, fun st => rfl, ?_, fun st v => rfl, dmReachable_page_nonneg, ?_⟩
  · intro st
    simp [prevDisabled]
  · intro env st hr skip lim vs hmem
    have hp : 0 ≤ st.page := dmReachable_page_nonneg st hr
    have hskip : skip = st.page * (PAGE_SIZE : Int) := by
      rcases hl : env.listResult with e | rs <;>
        simp [loadRecipes, hl] at hmem <;> exact hmem.1
    rw [hskip]
    positivity

/-- C10 witness: the invariant applied at concrete reachable states. -/
theorem C10_page_invariant_witness :
    0 ≤ initDMState.page
    ∧ (changeFilter "pending" stPage3).page = 0
    ∧ prevDisabled initDMState = true :=
  ⟨C10_page_invariant.2.2.2.2.1 initDMState DMReachable.init,
   C10_page_invariant.2.2.2.1 stPage3 "pending",
   (C10_page_invariant.2.2.1 initDMState).mpr rfl⟩

end Foodiee
